import Mathlib

/-!
Verification of the bioacoustic detection pipeline of `src/app.py`
(`generate_audio` endpoint): base64 decoding, temp-file handling, the
birdnetlib backend invocation, the confidence filter/selection, and the
result formatting.  Confidences are modelled as rationals; the request
body and HTTP response are modelled explicitly.
-/

/-- One candidate species match, as produced by the backend.
In the source each detection is a Python dict; `scientific_name` is
modelled as optional because a dict may lack the key (access then raises
`KeyError`). -/
structure Detection where
  common_name : String
  scientific_name : Option String
  confidence : ℚ
deriving DecidableEq

/-- One step of Python `max(detections, key=lambda d: d["confidence"])`:
the accumulator is replaced only when the new element is strictly
greater, so the first maximal element wins. -/
def selStep (acc d : Detection) : Detection :=
  if acc.confidence < d.confidence then d else acc

/-- Python `max(l, key=confidence)`, returning `none` on the empty list
(where Python would raise `ValueError`; the source guards with
`if not detections`). -/
def pyMax : List Detection → Option Detection
  | [] => none
  | x :: xs => some (xs.foldl selStep x)

/-- The filter from `src/app.py` line 160:
`[d for d in recording.detections if d["confidence"] >= f]`
(with `f = 0.5` hardcoded in this deployment). -/
def filterFloor (D : List Detection) (f : ℚ) : List Detection :=
  D.filter (fun d => f ≤ d.confidence)

/-- The selector: filter by the confidence floor, then take the maximum
by confidence (lines 160 and 167 of `src/app.py`). -/
def select (D : List Detection) (f : ℚ) : Option Detection :=
  pyMax (filterFloor D f)

/-- Maximum confidence over a detection list (0 for the empty list;
only used on nonempty lists). -/
def maxConf : List Detection → ℚ
  | [] => 0
  | x :: xs => xs.foldl (fun m d => max m d.confidence) x.confidence

lemma selStep_conf (a d : Detection) :
    (selStep a d).confidence = max a.confidence d.confidence := by
  unfold selStep
  by_cases h : a.confidence < d.confidence
  · rw [if_pos h, max_eq_right h.le]
  · rw [if_neg h, max_eq_left (not_lt.mp h)]

lemma selStep_or (a d : Detection) : selStep a d = a ∨ selStep a d = d := by
  unfold selStep
  by_cases h : a.confidence < d.confidence
  · rw [if_pos h]; exact Or.inr rfl
  · rw [if_neg h]; exact Or.inl rfl

lemma pyMax_eq_none (l : List Detection) : pyMax l = none ↔ l = [] := by
  cases l <;> simp [pyMax]

lemma filterFloor_eq_nil (D : List Detection) (f : ℚ) :
    filterFloor D f = [] ↔ ∀ d ∈ D, d.confidence < f := by
  unfold filterFloor
  rw [List.filter_eq_nil_iff]
  constructor
  · intro h d hd
    have := h d hd
    simpa [not_le] using this
  · intro h d hd
    simp [not_le]
    exact h d hd

lemma foldl_selStep_spec (xs : List Detection) : ∀ x : Detection,
    xs.foldl selStep x ∈ x :: xs ∧
    (∀ d ∈ x :: xs, d.confidence ≤ (xs.foldl selStep x).confidence) ∧
    (xs.foldl selStep x).confidence = maxConf (x :: xs) := by
  induction xs with
  | nil =>
    intro x
    refine ⟨by simp, ?_, by simp [maxConf]⟩
    intro d hd
    simp at hd
    simp [hd]
  | cons y ys ih =>
    intro x
    have hfold : (y :: ys).foldl selStep x = ys.foldl selStep (selStep x y) := rfl
    obtain ⟨hmem, hbnd, hmax⟩ := ih (selStep x y)
    have hx : x.confidence ≤ (selStep x y).confidence := by
      rw [selStep_conf]; exact le_max_left _ _
    have hy : y.confidence ≤ (selStep x y).confidence := by
      rw [selStep_conf]; exact le_max_right _ _
    have hhead : (selStep x y).confidence ≤ (ys.foldl selStep (selStep x y)).confidence :=
      hbnd _ (by simp)
    refine ⟨?_, ?_, ?_⟩
    · rw [hfold]
      rw [List.mem_cons] at hmem
      rcases hmem with h | h
      · rcases selStep_or x y with h2 | h2 <;> rw [h, h2] <;> simp
      · simp [h]
    · intro d hd
      rw [hfold]
      simp only [List.mem_cons] at hd
      rcases hd with h | h | h
      · rw [h]; exact le_trans hx hhead
      · rw [h]; exact le_trans hy hhead
      · exact hbnd d (List.mem_cons_of_mem _ h)
    · rw [hfold, hmax]
      show maxConf (selStep x y :: ys) = maxConf (x :: y :: ys)
      simp [maxConf, List.foldl_cons, selStep_conf]

lemma foldl_selStep_first (xs : List Detection) : ∀ x : Detection,
    ∃ l1 l2, x :: xs = l1 ++ (xs.foldl selStep x) :: l2 ∧
      ∀ d ∈ l1, d.confidence < (xs.foldl selStep x).confidence := by
  induction xs with
  | nil =>
    intro x
    exact ⟨[], [], by simp, by simp⟩
  | cons y ys ih =>
    intro x
    show ∃ l1 l2, x :: y :: ys = l1 ++ (ys.foldl selStep (selStep x y)) :: l2 ∧
      ∀ d ∈ l1, d.confidence < (ys.foldl selStep (selStep x y)).confidence
    obtain ⟨l1, l2, heq, hlt⟩ := ih (selStep x y)
    set b := ys.foldl selStep (selStep x y) with hbdef
    have hx : x.confidence ≤ (selStep x y).confidence := by
      rw [selStep_conf]; exact le_max_left _ _
    have hy : y.confidence ≤ (selStep x y).confidence := by
      rw [selStep_conf]; exact le_max_right _ _
    cases l1 with
    | nil =>
      rw [List.nil_append] at heq
      have hb : selStep x y = b := (List.cons_eq_cons.mp heq).1
      have hl2 : ys = l2 := (List.cons_eq_cons.mp heq).2
      by_cases h : x.confidence < y.confidence
      · have hstep : selStep x y = y := by unfold selStep; rw [if_pos h]
        refine ⟨[x], ys, ?_, ?_⟩
        · rw [← hb, hstep]
          simp
        · intro d hd
          simp at hd
          rw [hd, ← hb, hstep]
          exact h
      · have hstep : selStep x y = x := by unfold selStep; rw [if_neg h]
        refine ⟨[], y :: ys, ?_, by simp⟩
        rw [← hb, hstep]
        simp
    | cons z l1t =>
      rw [List.cons_append] at heq
      have hz : selStep x y = z := (List.cons_eq_cons.mp heq).1
      have hys : ys = l1t ++ b :: l2 := (List.cons_eq_cons.mp heq).2
      have hzlt : (selStep x y).confidence < b.confidence := by
        rw [hz]; exact hlt z (List.mem_cons_self _ _)
      refine ⟨x :: y :: l1t, l2, ?_, ?_⟩
      · rw [List.cons_append, List.cons_append, ← hys]
      · intro d hd
        simp only [List.mem_cons] at hd
        rcases hd with h | h | h
        · rw [h]; exact lt_of_le_of_lt hx hzlt
        · rw [h]; exact lt_of_le_of_lt hy hzlt
        · exact hlt d (List.mem_cons_of_mem _ h)

/-- Value of one base64 alphabet character (A-Z, a-z, 0-9, +, /);
characters outside the alphabet are ignored by Python's
`base64.b64decode` in its default non-validating mode. -/
def b64Val (c : Char) : Option Nat :=
  let n := c.toNat
  if 65 ≤ n ∧ n ≤ 90 then some (n - 65)
  else if 97 ≤ n ∧ n ≤ 122 then some (n - 97 + 26)
  else if 48 ≤ n ∧ n ≤ 57 then some (n - 48 + 52)
  else if c = '+' then some 62
  else if c = '/' then some 63
  else none

/-- Reassemble bytes from a list of 6-bit values, four at a time
(two leftover values give one byte, three give two). -/
def decodeQuads : List Nat → List Nat
  | a :: b :: c :: d :: rest =>
      (a * 4 + b / 16) :: ((b % 16) * 16 + c / 4) :: ((c % 4) * 64 + d) :: decodeQuads rest
  | [a, b] => [a * 4 + b / 16]
  | [a, b, c] => [a * 4 + b / 16, (b % 16) * 16 + c / 4]
  | _ => []

/-- Python `base64.b64decode` (default non-strict mode, as called at
`src/app.py` line 147): characters outside the alphabet are discarded;
a data-character count of 1 mod 4 raises `binascii.Error`, as does
insufficient `=` padding for a count of 2 or 3 mod 4; otherwise the
6-bit values are packed into bytes.  An exception is modelled as
`.error` with the exception text. -/
def pyB64Decode (s : String) : Except String (List Nat) :=
  let ds := s.data.filterMap b64Val
  let pads := (s.data.filter (fun c => c = '=')).length
  if ds.length % 4 = 1 then
    .error "Invalid base64-encoded string: number of data characters cannot be 1 more than a multiple of 4"
  else if ds.length % 4 = 2 ∧ pads < 2 then .error "Incorrect padding"
  else if ds.length % 4 = 3 ∧ pads < 1 then .error "Incorrect padding"
  else .ok (decodeQuads ds)

/-- Floor of a rational (numerator and denominator are coprime with a
positive denominator, so Euclidean division gives the floor). -/
def qfloor (x : ℚ) : ℤ := Int.ediv x.num x.den

/-- Round-half-even of a rational to the nearest integer, the rounding
used by Python's built-in `round`. -/
def halfEven (x : ℚ) : ℤ :=
  let f := qfloor x
  if x - f < 1/2 then f
  else if (1 : ℚ)/2 < x - f then f + 1
  else if f % 2 = 0 then f else f + 1

/-- `round(v, 1)` from `src/app.py` line 171, returned as a count of
tenths. -/
def pctTenths (v : ℚ) : ℤ := halfEven (v * 10)

/-- Decimal rendering of a nonnegative count of tenths, as Python
prints a float that is an exact multiple of 0.1 (e.g. 870 tenths
prints as 87.0). -/
def renderTenths (t : ℤ) : String :=
  let n := t.toNat
  toString (n / 10) ++ "." ++ toString (n % 10)

/-- The f-string of `src/app.py` lines 168-173, applied to the selected
best detection once its scientific-name key has been read
successfully. -/
def formatBest (best : Detection) (sci : String) : String :=
  "1. Вид: " ++ best.common_name ++ " (" ++ sci ++ ")\n" ++
  "2. Описание: BirdNET определил вид по голосу\n" ++
  "3. Уверенность: " ++ renderTenths (pctTenths (best.confidence * 100)) ++ "%\n" ++
  "4. Источник: BirdNET (локальный анализ)"

/-- The advisory body returned when no detection passes the 0.5 filter
(`src/app.py` lines 162-165). -/
def advisory : String := "⚠️ Птицы не обнаружены или запись слишком шумная/короткая."

/-- An HTTP-level response: a 200 success body, or an error body with a
status code. -/
inductive Resp where
  | ok (body : String)
  | err (msg : String) (status : Nat)
deriving DecidableEq

/-- The status code of a response (`none` for a 200 success). -/
def respStatus : Resp → Option Nat
  | .ok _ => none
  | .err _ st => some st

/-- Whether a response is a success body. -/
def respIsOk : Resp → Bool
  | .ok _ => true
  | .err _ _ => false

/-- The generic handler of `src/app.py` lines 177-179: any exception
reaching the boundary becomes a 500 response whose body interpolates
the exception text after the fixed prefix. -/
def serverError (msg : String) : Resp := .err ("Ошибка сервера: " ++ msg) 500

/-- Python's `str(KeyError)` for the missing scientific-name key (the
quotes Python puts around the key are elided). -/
def keyErrMsg : String := "scientific_name"

/-- Observable outcome of one `generate_audio` call: the response, plus
whether the request-scoped temp file was created and deleted, whether
the birdnetlib backend was invoked, and the exact bytes handed to it. -/
structure RunResult where
  resp : Resp
  tempCreated : Bool
  tempDeleted : Bool
  backendInvoked : Bool
  backendInput : Option (List Nat)
deriving DecidableEq

/-- The 400 response of `src/app.py` lines 143-145 for a missing (or
falsy, hence also empty) `audio_base64` field. -/
def noInputResult : RunResult :=
  ⟨.err "audio_base64 not provided" 400, false, false, false, none⟩

/-- Everything after a successful base64 decode (`src/app.py` lines
149-175): the decoded bytes are written verbatim to a temp `.wav` file,
the birdnetlib backend runs on that file inside a `try`/`finally` that
removes the file, then the 0.5-confidence filter, `max` selection and
formatting run; any exception (backend failure, or `KeyError` from a
missing scientific name) falls to the generic handler. -/
def afterDecode (audio_bytes : List Nat)
    (backend : List Nat → Except String (List Detection)) : RunResult :=
  match backend audio_bytes with
  | .error e => ⟨serverError e, true, true, true, some audio_bytes⟩
  | .ok raw =>
    match pyMax (filterFloor raw (1/2)) with
    | none => ⟨.ok advisory, true, true, true, some audio_bytes⟩
    | some best =>
      match best.scientific_name with
      | none => ⟨serverError keyErrMsg, true, true, true, some audio_bytes⟩
      | some sci => ⟨.ok (formatBest best sci), true, true, true, some audio_bytes⟩

/-- The `generate_audio` handler of `src/app.py` lines 135-179 for a
POST request, parameterized by the backend (the `Analyzer`/`Recording`
analysis, which returns the detection list or raises). -/
def generate_audio (audio_base64 : Option String)
    (backend : List Nat → Except String (List Detection)) : RunResult :=
  match audio_base64 with
  | none => noInputResult
  | some s =>
    if s = "" then noInputResult
    else
      match pyB64Decode s with
      | .error e => ⟨serverError e, false, false, false, none⟩
      | .ok audio_bytes => afterDecode audio_bytes backend

/-- Modelled from the spec: the canonical audio form that §2 and §4.1
say every backend must receive — a WAV (RIFF/WAVE) container whose
`fmt ` chunk declares one channel, a 16000 Hz sample rate and 16-bit
samples.  No code under `src/` computes this form; the predicate exists
to compare the spec's normalization contract with what the code
actually hands to the backend. -/
def isCanonicalWav16k (bs : List Nat) : Bool :=
  decide (44 ≤ bs.length) &&
  decide (bs.getD 0 0 = 82) && decide (bs.getD 1 0 = 73) &&
  decide (bs.getD 2 0 = 70) && decide (bs.getD 3 0 = 70) &&
  decide (bs.getD 8 0 = 87) && decide (bs.getD 9 0 = 65) &&
  decide (bs.getD 10 0 = 86) && decide (bs.getD 11 0 = 69) &&
  decide (bs.getD 22 0 + 256 * bs.getD 23 0 = 1) &&
  decide (bs.getD 24 0 + 256 * bs.getD 25 0 + 65536 * bs.getD 26 0 +
    16777216 * bs.getD 27 0 = 16000) &&
  decide (bs.getD 34 0 + 256 * bs.getD 35 0 = 16)

/-- Modelled from the spec: §6's client-error status class (HTTP 4xx). -/
def isClientErrorStatus (n : Nat) : Bool := decide (400 ≤ n) && decide (n < 500)

/-- A backend that finds nothing (silent or unanalyzable audio). -/
def bkEmpty : List Nat → Except String (List Detection) := fun _ => .ok []

/-- A backend whose only detection is below the 0.5 deployment floor. -/
def bkLow : List Nat → Except String (List Detection) :=
  fun _ => .ok [⟨"Sparrow", some "Passer domesticus", 3/10⟩]

/-- A backend reporting Scenario A of the spec: one clear detection at
confidence 0.87. -/
def bkBlackbird : List Nat → Except String (List Detection) :=
  fun _ => .ok [⟨"Eurasian Blackbird", some "Turdus merula", 87/100⟩]

/-- Two detections tied at confidence 0.91 (Scenario D). -/
def dTieA : Detection := ⟨"Tie Bird A", some "Avis prima", 91/100⟩

/-- Second of the two tied detections. -/
def dTieB : Detection := ⟨"Tie Bird B", some "Avis secunda", 91/100⟩

/-- A backend returning the two tied detections in a fixed order. -/
def bkTie : List Nat → Except String (List Detection) := fun _ => .ok [dTieA, dTieB]

/-- A detection whose dict lacks the scientific-name key. -/
def dNoSci : Detection := ⟨"Mystery Bird", none, 9/10⟩

/-- A backend whose best detection lacks the scientific-name key. -/
def bkNoSci : List Nat → Except String (List Detection) := fun _ => .ok [dNoSci]

/-- A backend that raises an exception whose text carries internal
details. -/
def bkBoom : List Nat → Except String (List Detection) :=
  fun _ => .error "[Errno 2] No such file or directory: /tmp/birdnet/model.tflite"


lemma generate_audio_decode_ok (s : String) (bytes : List Nat)
    (bk : List Nat → Except String (List Detection))
    (hs : s ≠ "") (hdec : pyB64Decode s = .ok bytes) :
    generate_audio (some s) bk = afterDecode bytes bk := by
  simp only [generate_audio]
  rw [if_neg hs, hdec]

lemma generate_audio_decode_error (s : String) (e : String)
    (bk : List Nat → Except String (List Detection))
    (hs : s ≠ "") (hdec : pyB64Decode s = .error e) :
    generate_audio (some s) bk = ⟨serverError e, false, false, false, none⟩ := by
  simp only [generate_audio]
  rw [if_neg hs, hdec]

lemma afterDecode_backend_error (bytes : List Nat) (e : String)
    (bk : List Nat → Except String (List Detection)) (hbk : bk bytes = .error e) :
    afterDecode bytes bk = ⟨serverError e, true, true, true, some bytes⟩ := by
  simp only [afterDecode, hbk]

lemma afterDecode_no_detection (bytes : List Nat) (raw : List Detection)
    (bk : List Nat → Except String (List Detection)) (hbk : bk bytes = .ok raw)
    (hsel : pyMax (filterFloor raw (1/2)) = none) :
    afterDecode bytes bk = ⟨.ok advisory, true, true, true, some bytes⟩ := by
  simp only [afterDecode, hbk, hsel]

lemma afterDecode_no_sci (bytes : List Nat) (raw : List Detection) (best : Detection)
    (bk : List Nat → Except String (List Detection)) (hbk : bk bytes = .ok raw)
    (hsel : pyMax (filterFloor raw (1/2)) = some best)
    (hno : best.scientific_name = none) :
    afterDecode bytes bk = ⟨serverError keyErrMsg, true, true, true, some bytes⟩ := by
  simp only [afterDecode, hbk, hsel, hno]

lemma afterDecode_best (bytes : List Nat) (raw : List Detection) (best : Detection)
    (sci : String) (bk : List Nat → Except String (List Detection))
    (hbk : bk bytes = .ok raw)
    (hsel : pyMax (filterFloor raw (1/2)) = some best)
    (hsci : best.scientific_name = some sci) :
    afterDecode bytes bk = ⟨.ok (formatBest best sci), true, true, true, some bytes⟩ := by
  simp only [afterDecode, hbk, hsel, hsci]

/-- C1: for every confidence floor f and detection set D, `select D f`
returns `none` iff every detection in D has confidence < f; and when the
backend's detections in this deployment (floor 0.5) are all below the
floor, `generate_audio` answers the NoDetection advisory body, not a
Best result. -/
theorem select_none_iff_all_below :
    (∀ (D : List Detection) (f : ℚ), select D f = none ↔ ∀ d ∈ D, d.confidence < f) ∧
    (∀ (s : String) (bytes : List Nat)
      (bk : List Nat → Except String (List Detection)) (dets : List Detection),
      s ≠ "" → pyB64Decode s = .ok bytes → bk bytes = .ok dets →
      (∀ d ∈ dets, d.confidence < 1/2) →
      (generate_audio (some s) bk).resp = .ok advisory) := by
  have hsel : ∀ (D : List Detection) (f : ℚ),
      select D f = none ↔ ∀ d ∈ D, d.confidence < f := by
    intro D f
    rw [select, pyMax_eq_none, filterFloor_eq_nil]
  refine ⟨hsel, ?_⟩
  intro s bytes bk dets hs hdec hbk hlow
  have hnone : pyMax (filterFloor dets (1/2)) = none := (hsel dets (1/2)).mpr hlow
  rw [generate_audio_decode_ok s bytes bk hs hdec,
    afterDecode_no_detection bytes dets bk hbk hnone]

/-- Witness for C1 at the concrete low-confidence backend `bkLow` and
the one-byte request body `QQ==`. -/
theorem select_none_iff_all_below_witness :
    select [⟨"Sparrow", some "Passer domesticus", 3/10⟩] (1/2) = none ∧
    (generate_audio (some "QQ==") bkLow).resp = .ok advisory := by
  have hlow : ∀ d ∈ [(⟨"Sparrow", some "Passer domesticus", 3/10⟩ : Detection)],
      d.confidence < 1/2 := by
    intro d hd
    simp at hd
    subst hd
    norm_num
  constructor
  · exact (select_none_iff_all_below.1 _ _).mpr hlow
  · exact select_none_iff_all_below.2 "QQ==" [65] bkLow
      [⟨"Sparrow", some "Passer domesticus", 3/10⟩]
      (by decide) rfl rfl hlow

/-- C2: whenever some detection of D reaches the floor f, `select D f`
returns a detection that belongs to the filtered subset, has confidence
equal to the maximum confidence of that subset (it bounds every filtered
detection), and in particular never lies below f. -/
theorem select_some_is_max :
    ∀ (D : List Detection) (f : ℚ), (∃ d ∈ D, f ≤ d.confidence) →
      ∃ b, select D f = some b ∧ b ∈ filterFloor D f ∧
        b.confidence = maxConf (filterFloor D f) ∧
        (∀ d ∈ filterFloor D f, d.confidence ≤ b.confidence) ∧
        f ≤ b.confidence := by
  intro D f hex
  have hne : filterFloor D f ≠ [] := by
    rw [Ne, filterFloor_eq_nil]
    push_neg
    obtain ⟨d, hd, hf⟩ := hex
    exact ⟨d, hd, hf⟩
  obtain ⟨x, xs, hcons⟩ := List.exists_cons_of_ne_nil hne
  obtain ⟨hmem, hbnd, hmax⟩ := foldl_selStep_spec xs x
  refine ⟨xs.foldl selStep x, ?_, ?_, ?_, ?_, ?_⟩
  · rw [select, hcons]; rfl
  · rw [hcons]; exact hmem
  · rw [hcons]; exact hmax
  · rw [hcons]; exact hbnd
  · have hmem2 : xs.foldl selStep x ∈ filterFloor D f := by rw [hcons]; exact hmem
    have := List.of_mem_filter hmem2
    simpa using this

/-- Witness for C2 on a two-detection set with floor 0.5. -/
theorem select_some_is_max_witness :
    ∃ b, select [⟨"Sparrow", some "Passer domesticus", 3/10⟩,
        ⟨"Eurasian Blackbird", some "Turdus merula", 87/100⟩] (1/2) = some b ∧
      b ∈ filterFloor [⟨"Sparrow", some "Passer domesticus", 3/10⟩,
        ⟨"Eurasian Blackbird", some "Turdus merula", 87/100⟩] (1/2) ∧
      b.confidence = maxConf (filterFloor [⟨"Sparrow", some "Passer domesticus", 3/10⟩,
        ⟨"Eurasian Blackbird", some "Turdus merula", 87/100⟩] (1/2)) ∧
      (∀ d ∈ filterFloor [⟨"Sparrow", some "Passer domesticus", 3/10⟩,
        ⟨"Eurasian Blackbird", some "Turdus merula", 87/100⟩] (1/2),
        d.confidence ≤ b.confidence) ∧
      (1 : ℚ)/2 ≤ b.confidence :=
  select_some_is_max _ _
    ⟨⟨"Eurasian Blackbird", some "Turdus merula", 87/100⟩, by simp, by norm_num⟩

/-- C5: whenever the filtered subset is nonempty (in particular when it
holds several detections tied at the maximal confidence), the selector
returns exactly one detection: the first element of the filtered
sequence attaining the maximum — everything before it is strictly
smaller, everything in the set is bounded by it — so the choice is
deterministic in the backend's native ordering. -/
theorem select_tie_returns_first :
    ∀ (D : List Detection) (f : ℚ), (∃ d ∈ D, f ≤ d.confidence) →
      ∃ l1 b l2, select D f = some b ∧
        filterFloor D f = l1 ++ b :: l2 ∧
        (∀ d ∈ l1, d.confidence < b.confidence) ∧
        (∀ d ∈ filterFloor D f, d.confidence ≤ b.confidence) ∧
        b.confidence = maxConf (filterFloor D f) := by
  intro D f hex
  have hne : filterFloor D f ≠ [] := by
    rw [Ne, filterFloor_eq_nil]
    push_neg
    obtain ⟨d, hd, hf⟩ := hex
    exact ⟨d, hd, hf⟩
  obtain ⟨x, xs, hcons⟩ := List.exists_cons_of_ne_nil hne
  obtain ⟨hmem, hbnd, hmax⟩ := foldl_selStep_spec xs x
  obtain ⟨l1, l2, heq, hlt⟩ := foldl_selStep_first xs x
  refine ⟨l1, xs.foldl selStep x, l2, ?_, ?_, hlt, ?_, ?_⟩
  · rw [select, hcons]; rfl
  · rw [hcons]; exact heq
  · rw [hcons]; exact hbnd
  · rw [hcons]; exact hmax

/-- Witness for C5 at Scenario D: two detections tied at 0.91 under
floor 0.5; the theorem applies, and the selector indeed picks the first
of the two every time. -/
theorem select_tie_returns_first_witness :
    (∃ l1 b l2, select [dTieA, dTieB] (1/2) = some b ∧
      filterFloor [dTieA, dTieB] (1/2) = l1 ++ b :: l2 ∧
      (∀ d ∈ l1, d.confidence < b.confidence) ∧
      (∀ d ∈ filterFloor [dTieA, dTieB] (1/2), d.confidence ≤ b.confidence) ∧
      b.confidence = maxConf (filterFloor [dTieA, dTieB] (1/2))) ∧
    select [dTieA, dTieB] (1/2) = some dTieA := by
  constructor
  · exact select_tie_returns_first [dTieA, dTieB] (1/2)
      ⟨dTieA, by simp, by norm_num [dTieA]⟩
  · with_unfolding_all rfl

lemma afterDecode_flags (bytes : List Nat) (bk : List Nat → Except String (List Detection)) :
    (afterDecode bytes bk).tempCreated = true ∧
    (afterDecode bytes bk).tempDeleted = true ∧
    (afterDecode bytes bk).backendInvoked = true ∧
    (afterDecode bytes bk).backendInput = some bytes := by
  unfold afterDecode
  cases bk bytes with
  | error e => exact ⟨rfl, rfl, rfl, rfl⟩
  | ok raw =>
    dsimp only
    cases pyMax (filterFloor raw (1/2)) with
    | none => exact ⟨rfl, rfl, rfl, rfl⟩
    | some best =>
      dsimp only
      cases best.scientific_name with
      | none => exact ⟨rfl, rfl, rfl, rfl⟩
      | some sci => exact ⟨rfl, rfl, rfl, rfl⟩

/-- C3 counterexample: the body `Qg==` decodes to the single byte 66,
which the pipeline hands to the backend as-is; the backend is invoked on
it even though it is not canonical mono 16 kHz 16-bit PCM (it is not
even a WAV container), so the backend does not only ever receive
canonical audio. -/
theorem normalization_missing_cex :
    (generate_audio (some "Qg==") bkBlackbird).backendInvoked = true ∧
    (generate_audio (some "Qg==") bkBlackbird).backendInput = some [66] ∧
    isCanonicalWav16k [66] = false := by
  refine ⟨?_, ?_, ?_⟩ <;> with_unfolding_all rfl

/-- C3 amended: the pipeline performs no decode/resample/downmix step of
its own — for every accepted request the backend receives exactly the
base64-decoded request bytes, written verbatim to the temp `.wav`
file. -/
theorem backend_receives_decoded_bytes_verbatim :
    ∀ (s : String) (bytes : List Nat) (bk : List Nat → Except String (List Detection)),
      s ≠ "" → pyB64Decode s = .ok bytes →
      (generate_audio (some s) bk).backendInput = some bytes ∧
      (generate_audio (some s) bk).backendInvoked = true := by
  intro s bytes bk hs hdec
  rw [generate_audio_decode_ok s bytes bk hs hdec]
  exact ⟨(afterDecode_flags bytes bk).2.2.2, (afterDecode_flags bytes bk).2.2.1⟩

/-- Witness for the C3 amended theorem at the two-byte body `Qk0=`. -/
theorem backend_receives_decoded_bytes_verbatim_witness :
    (generate_audio (some "Qk0=") bkEmpty).backendInput = some [66, 77] ∧
    (generate_audio (some "Qk0=") bkEmpty).backendInvoked = true :=
  backend_receives_decoded_bytes_verbatim "Qk0=" [66, 77] bkEmpty
    (by decide) (by with_unfolding_all rfl)

/-- C4 counterexample: a three-byte buffer (far below any ~0.5 s
duration or byte floor) is not rejected — the backend is invoked on it,
and with an empty detection result the response is the 200 advisory
body, not an InputTooShort error. -/
theorem short_input_reaches_backend_cex :
    (generate_audio (some "AAAA") bkEmpty).backendInvoked = true ∧
    (generate_audio (some "AAAA") bkEmpty).resp = .ok advisory := by
  constructor <;> with_unfolding_all rfl

/-- C4 amended: the pipeline has no minimum byte/duration check at all:
every successfully decoded payload, however small, is passed to the
backend, and an empty detection set surfaces as the advisory
no-detection body. -/
theorem no_minimum_size_check :
    ∀ (s : String) (bytes : List Nat) (bk : List Nat → Except String (List Detection)),
      s ≠ "" → pyB64Decode s = .ok bytes →
      (generate_audio (some s) bk).backendInvoked = true ∧
      (bk bytes = .ok [] → (generate_audio (some s) bk).resp = .ok advisory) := by
  intro s bytes bk hs hdec
  rw [generate_audio_decode_ok s bytes bk hs hdec]
  refine ⟨(afterDecode_flags bytes bk).2.2.1, ?_⟩
  intro hbk
  rw [afterDecode_no_detection bytes [] bk hbk rfl]

/-- Witness for the C4 amended theorem at the one-byte body `AA==`. -/
theorem no_minimum_size_check_witness :
    (generate_audio (some "AA==") bkEmpty).backendInvoked = true ∧
    (generate_audio (some "AA==") bkEmpty).resp = .ok advisory :=
  ⟨(no_minimum_size_check "AA==" [0] bkEmpty (by decide) (by with_unfolding_all rfl)).1,
   (no_minimum_size_check "AA==" [0] bkEmpty (by decide) (by with_unfolding_all rfl)).2 rfl⟩

/-- C6 counterexample: when the best detection lacks the
scientific-name key, the f-string access raises `KeyError`, which the
generic handler turns into a 500 error — the outcome is not a Best
result and the missing field is not tolerated. -/
theorem missing_sci_name_cex :
    (generate_audio (some "Qm8=") bkNoSci).resp =
      Resp.err ("Ошибка сервера: " ++ keyErrMsg) 500 ∧
    respIsOk (generate_audio (some "Qm8=") bkNoSci).resp = false := by
  constructor <;> with_unfolding_all rfl

/-- C6 amended: a selected best detection without a scientific name
always produces the generic 500 server error (via `KeyError`), never a
formatted Best body. -/
theorem missing_sci_name_yields_server_error :
    ∀ (s : String) (bytes : List Nat) (bk : List Nat → Except String (List Detection))
      (raw : List Detection) (best : Detection),
      s ≠ "" → pyB64Decode s = .ok bytes → bk bytes = .ok raw →
      select raw (1/2) = some best → best.scientific_name = none →
      (generate_audio (some s) bk).resp = .err ("Ошибка сервера: " ++ keyErrMsg) 500 := by
  intro s bytes bk raw best hs hdec hbk hsel hno
  rw [generate_audio_decode_ok s bytes bk hs hdec,
    afterDecode_no_sci bytes raw best bk hbk hsel hno]
  rfl

/-- Witness for the C6 amended theorem at the concrete backend whose
only (0.9-confidence) detection lacks the scientific-name key. -/
theorem missing_sci_name_yields_server_error_witness :
    (generate_audio (some "QmM=") bkNoSci).resp =
      .err ("Ошибка сервера: " ++ keyErrMsg) 500 :=
  missing_sci_name_yields_server_error "QmM=" [66, 99] bkNoSci [dNoSci] dNoSci
    (by decide) (by with_unfolding_all rfl) rfl (by with_unfolding_all rfl) rfl

/-- C7: whenever a best detection is selected (and its scientific-name
key is present), the success body is the fixed four-line summary holding
the common name, the scientific name, the confidence as a percentage
rounded to one decimal place, and the BirdNET source label; and a
confidence of 0.87 renders as the digits 87.0 before the percent
sign. -/
theorem best_detection_formatting :
    (∀ (s : String) (bytes : List Nat) (bk : List Nat → Except String (List Detection))
      (raw : List Detection) (best : Detection) (sci : String),
      s ≠ "" → pyB64Decode s = .ok bytes → bk bytes = .ok raw →
      select raw (1/2) = some best → best.scientific_name = some sci →
      (generate_audio (some s) bk).resp = .ok (
        "1. Вид: " ++ best.common_name ++ " (" ++ sci ++ ")\n" ++
        "2. Описание: BirdNET определил вид по голосу\n" ++
        "3. Уверенность: " ++ renderTenths (pctTenths (best.confidence * 100)) ++ "%\n" ++
        "4. Источник: BirdNET (локальный анализ)")) ∧
    renderTenths (pctTenths ((87 : ℚ)/100 * 100)) = "87.0" := by
  constructor
  · intro s bytes bk raw best sci hs hdec hbk hsel hsci
    rw [generate_audio_decode_ok s bytes bk hs hdec,
      afterDecode_best bytes raw best sci bk hbk hsel hsci]
    rfl
  · with_unfolding_all rfl

/-- Witness for C7 at Scenario A: backend confidence 0.87 for the
Eurasian Blackbird, body `QmlyZA==`; the output names the species and
renders 87.0%. -/
theorem best_detection_formatting_witness :
    (generate_audio (some "QmlyZA==") bkBlackbird).resp = .ok
      ("1. Вид: Eurasian Blackbird (Turdus merula)\n2. Описание: BirdNET определил вид по голосу\n3. Уверенность: 87.0%\n4. Источник: BirdNET (локальный анализ)") := by
  have h := best_detection_formatting.1 "QmlyZA==" [66, 105, 114, 100] bkBlackbird
    [⟨"Eurasian Blackbird", some "Turdus merula", 87/100⟩]
    ⟨"Eurasian Blackbird", some "Turdus merula", 87/100⟩ "Turdus merula"
    (by decide) (by with_unfolding_all rfl) rfl (by with_unfolding_all rfl) rfl
  rw [h]
  with_unfolding_all rfl

/-- C8 counterexample: the body `A` is invalid base64 (1 data character
mod 4), and its exception surfaces as a 500 — a server-error status, not
a client-error class; and the body `!!!!` is also not valid base64 yet
decodes silently to zero bytes, on which the backend IS invoked. -/
theorem invalid_b64_status_cex :
    respStatus (generate_audio (some "A") bkEmpty).resp = some 500 ∧
    isClientErrorStatus 500 = false ∧
    (generate_audio (some "!!!!") bkEmpty).backendInvoked = true ∧
    (generate_audio (some "!!!!") bkEmpty).backendInput = some [] := by
  refine ⟨?_, ?_, ?_, ?_⟩ <;> with_unfolding_all rfl

/-- C8 amended: a missing (or empty) `audio_base64` field yields the 400
client error without backend work; base64 input that raises in
`b64decode` yields the generic 500 server error — not a client-error
status — though also without backend work (while ignorable-character
payloads decode silently and do reach the backend). -/
theorem request_error_handling :
    (∀ bk : List Nat → Except String (List Detection),
      (generate_audio none bk).resp = .err "audio_base64 not provided" 400 ∧
      (generate_audio none bk).backendInvoked = false ∧
      isClientErrorStatus 400 = true) ∧
    (∀ (s e : String) (bk : List Nat → Except String (List Detection)),
      s ≠ "" → pyB64Decode s = .error e →
      (generate_audio (some s) bk).resp = .err ("Ошибка сервера: " ++ e) 500 ∧
      (generate_audio (some s) bk).backendInvoked = false) := by
  constructor
  · intro bk
    exact ⟨rfl, rfl, rfl⟩
  · intro s e bk hs hdec
    rw [generate_audio_decode_error s e bk hs hdec]
    exact ⟨rfl, rfl⟩

/-- Witness for the C8 amended theorem: the missing-field case, and the
invalid body `A` with its concrete 500 response. -/
theorem request_error_handling_witness :
    ((generate_audio none bkLow).resp = .err "audio_base64 not provided" 400 ∧
      (generate_audio none bkLow).backendInvoked = false ∧
      isClientErrorStatus 400 = true) ∧
    ((generate_audio (some "A") bkLow).resp = .err ("Ошибка сервера: " ++
      "Invalid base64-encoded string: number of data characters cannot be 1 more than a multiple of 4") 500 ∧
      (generate_audio (some "A") bkLow).backendInvoked = false) :=
  ⟨request_error_handling.1 bkLow,
   request_error_handling.2 "A"
     "Invalid base64-encoded string: number of data characters cannot be 1 more than a multiple of 4"
     bkLow (by decide) (by with_unfolding_all rfl)⟩

/-- C9 counterexample: a backend exception whose text carries internal
details (a filesystem path) is caught, but its raw text is interpolated
into the response body after the fixed prefix — the details are leaked
to the caller, not replaced by a generic message. -/
theorem internal_error_leak_cex :
    (generate_audio (some "Qk8=") bkBoom).resp =
      Resp.err ("Ошибка сервера: [Errno 2] No such file or directory: /tmp/birdnet/model.tflite") 500 := by
  with_unfolding_all rfl

/-- C9 amended: every backend exception is caught at the boundary and
returned as a 500 whose body is the fixed prefix followed by the raw
exception text (`str(e)`), so the internal details are included rather
than hidden. -/
theorem internal_error_caught_with_details :
    ∀ (s : String) (bytes : List Nat) (bk : List Nat → Except String (List Detection))
      (e : String), s ≠ "" → pyB64Decode s = .ok bytes → bk bytes = .error e →
      (generate_audio (some s) bk).resp = .err ("Ошибка сервера: " ++ e) 500 := by
  intro s bytes bk e hs hdec hbk
  rw [generate_audio_decode_ok s bytes bk hs hdec,
    afterDecode_backend_error bytes e bk hbk]
  rfl

/-- Witness for the C9 amended theorem at the concrete raising
backend. -/
theorem internal_error_caught_with_details_witness :
    (generate_audio (some "QkU=") bkBoom).resp = .err ("Ошибка сервера: " ++
      "[Errno 2] No such file or directory: /tmp/birdnet/model.tflite") 500 :=
  internal_error_caught_with_details "QkU=" [66, 69] bkBoom
    "[Errno 2] No such file or directory: /tmp/birdnet/model.tflite"
    (by decide) (by with_unfolding_all rfl) rfl

/-- C10: on every request for which the temp audio file is created (the
base64 decode succeeded), the `finally` clause removes it — on backend
failure as well as on every later path — so no temp file outlives the
call. -/
theorem temp_file_removed_on_every_path :
    ∀ (audio_base64 : Option String) (bk : List Nat → Except String (List Detection)),
      (generate_audio audio_base64 bk).tempCreated = true →
      (generate_audio audio_base64 bk).tempDeleted = true := by
  intro ab bk hcr
  cases ab with
  | none => simp [generate_audio, noInputResult] at hcr
  | some s =>
    by_cases hs : s = ""
    · subst hs
      simp [generate_audio, noInputResult] at hcr
    · cases hdec : pyB64Decode s with
      | error e =>
        rw [generate_audio_decode_error s e bk hs hdec] at hcr
        simp at hcr
      | ok bytes =>
        rw [generate_audio_decode_ok s bytes bk hs hdec]
        exact (afterDecode_flags bytes bk).2.1

/-- Witness for C10 at a concrete three-byte request (also for a
failing backend, where the `finally` path is the one that runs). -/
theorem temp_file_removed_on_every_path_witness :
    (generate_audio (some "Q2F3") bkEmpty).tempDeleted = true ∧
    (generate_audio (some "Q2F3") bkBoom).tempDeleted = true :=
  ⟨temp_file_removed_on_every_path (some "Q2F3") bkEmpty (by with_unfolding_all rfl),
   temp_file_removed_on_every_path (some "Q2F3") bkBoom (by with_unfolding_all rfl)⟩
